import Mathlib

/-!
Shallow embedding of the two scripts of this repository:
* `src/batch.js` — the batch dictionary-enrichment job (`DictionaryProcessor`),
* `src/restapi.js` — the HTTP analysis relay service (rate-limited variant).

External effects (the generative-AI provider calls, `JSON.parse`, the file
system) are passed in as explicit oracle arguments; everything the scripts
compute themselves is translated directly from the JavaScript source.
-/

set_option maxRecDepth 100000

namespace Spec2Proof

/-! ## Batch enrichment job (`src/batch.js`, `DictionaryProcessor`) -/

/-- Chunk size used by `processWords`: `for (let i = 0; i < words.length; i += 100)`. -/
def chunkSize : Nat := 100

/-- Structural worker for `toChunks`; `fuel` only forces termination and is
set to the list length, which the chunking loop can never exceed. -/
def toChunksGo (fuel : Nat) (l : List α) : List (List α) :=
  match fuel, l with
  | _, [] => []
  | 0, _ :: _ => []
  | fuel + 1, a :: t => ((a :: t).take chunkSize) :: toChunksGo fuel ((a :: t).drop chunkSize)

/-- `words.slice(i, i + 100)` pushed for `i = 0, 100, 200, …` — splits the word
list into contiguous chunks of at most 100 elements. -/
def toChunks (l : List α) : List (List α) :=
  toChunksGo l.length l

/-- `content.split('\n')` for the single-character separator: splits a character
list at every newline, keeping empty segments, as JS `String.prototype.split`
does. -/
def splitLines : List Char → List (List Char)
  | [] => [[]]
  | c :: t =>
    match splitLines t with
    | [] => [[]]
    | line :: rest =>
      if c = '\n' then [] :: line :: rest else (c :: line) :: rest

/-- JS `word.trim()`: strip leading and trailing whitespace. -/
def jsTrim (cs : List Char) : List Char :=
  ((cs.dropWhile Char.isWhitespace).reverse.dropWhile Char.isWhitespace).reverse

/-- `content.split('\n').filter(word => word.trim())`: the word list parsed from
the input file; a line is kept when its trimmed form is nonempty (JS truthiness
of a string), and the untrimmed line itself is kept. -/
def parseWords (content : String) : List String :=
  ((splitLines content.data).filter (fun w => ¬(jsTrim w).isEmpty)).map String.mk

/-- JS regex match `response.match(/\[[\s\S]*\]/)`: the leftmost match of the
greedy pattern is the substring from the first `[` through the *last* `]` of
the whole response (provided that `]` lies strictly after that `[`). -/
def extractArray (s : String) : Option String :=
  let cs := s.data
  match cs.findIdx? (· = '[') with
  | none => none
  | some i =>
    match cs.reverse.findIdx? (· = ']') with
    | none => none
    | some r =>
      let j := cs.length - 1 - r
      if i < j then some (String.mk ((cs.drop i).take (j - i + 1))) else none

/-- `queryGemini`, with the provider interaction and `JSON.parse` made explicit:
`outcome` is the streamed provider reply (or the error thrown while obtaining
it) and `parse` models `JSON.parse` restricted to arrays (`none` = throws).
The body is `try { … match … ? JSON.parse(…) : [] } catch { return [] }`. -/
def queryGemini (outcome : Except String String) (parse : String → Option (List α)) :
    List α :=
  match outcome with
  | .error _ => []
  | .ok response =>
    match extractArray response with
    | none => []
    | some s =>
      match parse s with
      | none => []        -- JSON.parse threw; caught by the surrounding catch
      | some records => records

/-- A file written by the job: name and the JSON array persisted into it. -/
structure FileWrite (α : Type) where
  name : String
  content : List α
deriving DecidableEq, Repr

/-- `processWords`: read the word file, split into chunks of 100, query the
provider once per chunk accumulating `allResults`, and write the single
combined file `all_dic.json`.  `query` is the per-chunk result of
`queryGemini` (already `[]` on any per-chunk failure).  The function returns
the list of file writes the run performs. -/
def processWords (content : String) (query : List String → List α) :
    List (FileWrite α) :=
  let words := parseWords content
  let chunks := toChunks words
  let allResults := (chunks.map query).flatten
  [⟨"all_dic.json", allResults⟩]

/-- The starting offset of each chunk the job sends to the provider: the loop
visits every chunk index `i` in order, and chunk `i` starts at word offset
`100 * i`.  `processWords` consults nothing else before querying. -/
def requestedOffsets (content : String) : List Nat :=
  (List.range (toChunks (parseWords content)).length).map (· * chunkSize)

/-- A run of the job started in a directory already holding chunk-output files
for the offsets `existing`.  `processWords` never reads the output directory
(there is no directory scan anywhere in `src/batch.js`), so the chunks it
requests are independent of `existing`. -/
def requestedOffsetsWithExisting (_existing : List Nat) (content : String) :
    List Nat :=
  requestedOffsets content

/-- Modelled from the spec: "Extract the first top-level JSON array substring
found in the response (via bracket-matched pattern search)".  Scans from the
first `[` with a bracket-depth counter and stops at its matching `]`.  Stated
only to compare with `extractArray`, the extraction the source performs. -/
def specBracketScan : List Char → Nat → List Char → Option (List Char)
  | [], _, _ => none
  | c :: rest, depth, acc =>
    if c = '[' then specBracketScan rest (depth + 1) (acc ++ [c])
    else if c = ']' then
      if depth = 1 then some (acc ++ [c])
      else specBracketScan rest (depth - 1) (acc ++ [c])
    else specBracketScan rest depth (acc ++ [c])

/-- Modelled from the spec: the first top-level JSON array substring of the
response, found by bracket matching from the first `[`. -/
def specFirstTopLevelArray (s : String) : Option String :=
  match s.data.dropWhile (· ≠ '[') with
  | [] => none
  | c :: rest => (specBracketScan rest 1 [c]).map String.mk

/-! ## Analysis relay service (`src/restapi.js`, rate-limited variant) -/

/-- The `ModelType` enum object of `src/restapi.js`. -/
inductive ModelType
  | GEMINI
  | MIXTRAL
  | GEMINI_THINKING
deriving DecidableEq, Repr

/-- JS `String.prototype.toUpperCase`, character-wise (the selectors exercised
are ASCII). -/
def toUpperCase (s : String) : String :=
  String.mk (s.data.map Char.toUpper)

/-- JS property lookup `ModelType[key]` for an upper-cased key: none of the
property names inherited from `Object.prototype` is all-caps, so the lookup
succeeds exactly on the three declared keys. -/
def lookupModelType (key : String) : Option ModelType :=
  if key = "GEMINI" then some ModelType.GEMINI
  else if key = "MIXTRAL" then some ModelType.MIXTRAL
  else if key = "GEMINI_THINKING" then some ModelType.GEMINI_THINKING
  else none

/-- `req.body.model?.toUpperCase()` fed to `ModelType[...]`: an absent `model`
field gives `undefined`, which fails the lookup. -/
def selectModel : Option String → Option ModelType
  | none => none
  | some s => lookupModelType (toUpperCase s)

/-- A thrown JS error: its constructor name and its `message`
(`error.toString()` is `name ++ ": " ++ message`, `error.message` just the
message). -/
structure JsErr where
  name : String
  message : String
deriving DecidableEq, Repr

/-- `error.toString()`. -/
def jsErrToString (e : JsErr) : String :=
  e.name ++ ": " ++ e.message

/-- `sub.isPrefixOf hay` on character lists, spelled out. -/
def leadsWith : List Char → List Char → Bool
  | [], _ => true
  | _ :: _, [] => false
  | a :: as, b :: bs => a == b && leadsWith as bs

/-- Substring search on character lists. -/
def hasSub (sub : List Char) : List Char → Bool
  | [] => sub.isEmpty
  | c :: t => leadsWith sub (c :: t) || hasSub sub t

/-- JS `s.includes(sub)`. -/
def strIncludes (s sub : String) : Bool :=
  hasSub sub.data s.data

/-- The result object the service extracts from a provider reply. -/
structure AnalysisResult where
  production_date : Option String
  expiration_date : Option String
  production_id : Option String
  additional_info : Option String
deriving DecidableEq, Repr

/-- The all-null result used by the `/compareAnalyze` per-branch catch. -/
def nullResult : AnalysisResult :=
  ⟨none, none, none, none⟩

/-- Net outcome of one `analyzeWithMixtral` attempt, before its own
`try`/`catch` runs: the reply held a parsed fenced JSON object, or it held no
fenced JSON, or something threw inside the `try`. -/
inductive MixtralOutcome
  | ok (r : AnalysisResult)
  | noJson
  | err (e : JsErr)
deriving DecidableEq, Repr

/-- `analyzeWithMixtral`: its internal `try`/`catch` converts both a reply
without fenced JSON and any thrown error into a result object whose
`additional_info` carries the error text; it never rejects. -/
def analyzeWithMixtral : MixtralOutcome → AnalysisResult
  | .ok r => r
  | .noJson => { nullResult with additional_info := some ("Error: No valid JSON found in Mixtral response") }
  | .err e => { nullResult with additional_info := some ("Mixtral Error: " ++ e.message) }

/-- The per-provider outcomes of one image analysis: the Gemini branches
reject with an error (network failure, or the thrown
"No JSON content found …"), the Mixtral branch has `MixtralOutcome`. -/
structure AnalyzeOutcomes where
  gemini : Except JsErr AnalysisResult
  mixtral : MixtralOutcome
  geminiThinking : Except JsErr AnalysisResult

/-- `client.analyzeImage(buffer, modelType)`: dispatch on the model type; the
Mixtral branch always resolves because `analyzeWithMixtral` catches
internally. -/
def analyzeImage (o : AnalyzeOutcomes) : ModelType → Except JsErr AnalysisResult
  | .GEMINI => o.gemini
  | .MIXTRAL => .ok (analyzeWithMixtral o.mixtral)
  | .GEMINI_THINKING => o.geminiThinking

/-- Response of the `/analyze` endpoint. -/
inductive AnalyzeResp
  | err (status : Nat) (msg : String)
  | ok (status : Nat) (data : AnalysisResult)
deriving DecidableEq, Repr

/-- The `/analyze` handler: 400 when no file was uploaded, 400 when the model
selector fails the enum lookup, otherwise one provider call whose resolution
is 200 with the result and whose rejection is 500 with the error message.
The second component lists the provider calls the handler performs. -/
def analyzeHandler (hasFile : Bool) (model : Option String) (o : AnalyzeOutcomes) :
    AnalyzeResp × List ModelType :=
  if !hasFile then (.err 400 ("No image file provided"), [])
  else
    match selectModel model with
    | none => (.err 400 ("Invalid model type. Use GEMINI or MIXTRAL"), [])
    | some mt =>
      match analyzeImage o mt with
      | .ok r => (.ok 200 r, [mt])
      | .error e => (.err 500 e.message, [mt])

/-- Response of the `/compareAnalyze` endpoint. -/
inductive CompareResp
  | err (status : Nat) (msg : String)
  | ok (status : Nat) (datas : List AnalysisResult)
deriving DecidableEq, Repr

/-- The `.catch(error => ({ … all null … }))` wrapped around each provider
branch of `/compareAnalyze`. -/
def catchNull : Except JsErr AnalysisResult → AnalysisResult
  | .ok r => r
  | .error _ => nullResult

/-- The `/compareAnalyze` handler: 400 when no file was uploaded, otherwise a
`Promise.all` over the three providers in the fixed order GEMINI, MIXTRAL,
GEMINI_THINKING, each branch independently caught into `nullResult`, answered
with status 200. -/
def compareAnalyzeHandler (hasFile : Bool) (o : AnalyzeOutcomes) :
    CompareResp × List ModelType :=
  if !hasFile then (.err 400 ("No image file provided"), [])
  else
    (.ok 200 [catchNull (analyzeImage o .GEMINI),
              catchNull (analyzeImage o .MIXTRAL),
              catchNull (analyzeImage o .GEMINI_THINKING)],
     [.GEMINI, .MIXTRAL, .GEMINI_THINKING])

/-- The identifiers imported at the top of the rate-limited variant of
`src/restapi.js`; `HarmCategory` and `HarmBlockThreshold` are absent. -/
def importedIdentifiersV2 : List String :=
  ["express", "multer", "GoogleGenerativeAI", "Mistral", "dotenv", "sharp", "rateLimit"]

/-- The `ReferenceError` raised when the Gemini branch of `ask` evaluates the
unimported identifier `HarmCategory` while building `safetySettings`. -/
def harmReferenceError : JsErr :=
  ⟨"ReferenceError", "HarmCategory is not defined"⟩

/-- The message `ask` substitutes for a provider-reported rate-limit error. -/
def rateLimitMsg : String :=
  "Rate limit exceeded, please try again later"

/-- The `catch` block of `ImageAnalysisClient.ask`: a thrown error whose
string form contains "Too Many Requests" or "Please try again later" is
replaced by the fixed rate-limit error; anything else is rethrown as is. -/
def askCatch (e : JsErr) : JsErr :=
  if strIncludes (jsErrToString e) ("Too Many Requests")
      || strIncludes (jsErrToString e) ("Please try again later") then
    ⟨"Error", rateLimitMsg⟩
  else e

/-- Per-provider outcomes of one `ask` call: the streamed reply text, or the
error thrown while obtaining it. -/
structure AskOutcomes where
  gemini : Except JsErr String
  geminiThinking : Except JsErr String
  mixtral : Except JsErr String

/-- `ImageAnalysisClient.ask`: the Gemini branches first evaluate
`HarmCategory`/`HarmBlockThreshold` when building `safetySettings`; in a scope
that does not bind them this raises a `ReferenceError` before any provider
call, which the `catch` classifies and rethrows.  The second component lists
the provider calls performed. -/
def askClient (scope : List String) (o : AskOutcomes) :
    ModelType → Except JsErr String × List ModelType
  | .GEMINI =>
    if scope.contains ("HarmCategory") && scope.contains ("HarmBlockThreshold") then
      match o.gemini with
      | .ok s => (.ok s, [.GEMINI])
      | .error e => (.error (askCatch e), [.GEMINI])
    else (.error (askCatch harmReferenceError), [])
  | .GEMINI_THINKING =>
    if scope.contains ("HarmCategory") && scope.contains ("HarmBlockThreshold") then
      match o.geminiThinking with
      | .ok s => (.ok s, [.GEMINI_THINKING])
      | .error e => (.error (askCatch e), [.GEMINI_THINKING])
    else (.error (askCatch harmReferenceError), [])
  | .MIXTRAL =>
    match o.mixtral with
    | .ok s => (.ok s, [.MIXTRAL])
    | .error e => (.error (askCatch e), [.MIXTRAL])

/-- Response of the `/ask` endpoint. -/
inductive AskResp
  | err (status : Nat) (msg : String)
  | ok (status : Nat) (response : String)
deriving DecidableEq, Repr

/-- JS truthiness test `if (!prompt)`: the prompt is missing when the field is
absent or the empty string. -/
def promptMissing : Option String → Bool
  | none => true
  | some s => s == ""

/-- The `/ask` handler: 400 when the prompt is missing, 400 when the model
selector fails the enum lookup, otherwise the `ask` call; its resolution is
200 with the reply text and its rejection is 500 with the error message. -/
def askHandler (scope : List String) (prompt model : Option String) (o : AskOutcomes) :
    AskResp × List ModelType :=
  if promptMissing prompt then (.err 400 ("No prompt provided"), [])
  else
    match selectModel model with
    | none => (.err 400 ("Invalid model type. Use GEMINI, MIXTRAL, or GEMINI_THINKING"), [])
    | some mt =>
      match askClient scope o mt with
      | (.ok s, calls) => (.ok 200 s, calls)
      | (.error e, calls) => (.err 500 e.message, calls)

/-- The `requestCounter` object. -/
structure UsageCounters where
  analyze : Nat
  compareAnalyze : Nat
  total : Nat
deriving DecidableEq, Repr

/-- The endpoints of the service. -/
inductive Endpoint
  | analyze
  | compareAnalyze
  | ask
  | check
  | status
deriving DecidableEq, Repr

/-- The counter increments each handler performs on entry: `/analyze` bumps
`analyze` and `total`, `/compareAnalyze` bumps `compareAnalyze` and `total`,
`/ask` bumps only `total`, the GET endpoints bump nothing. -/
def countRequest (c : UsageCounters) : Endpoint → UsageCounters
  | .analyze => { c with analyze := c.analyze + 1, total := c.total + 1 }
  | .compareAnalyze => { c with compareAnalyze := c.compareAnalyze + 1, total := c.total + 1 }
  | .ask => { c with total := c.total + 1 }
  | .check => c
  | .status => c

/-- The counters after a sequence of handled requests, from the initial
all-zero `requestCounter`. -/
def runRequests (es : List Endpoint) : UsageCounters :=
  es.foldl countRequest ⟨0, 0, 0⟩

/-- How many handled requests in a sequence were `/ask` requests. -/
def countAsk : List Endpoint → Nat
  | [] => 0
  | .ask :: t => countAsk t + 1
  | _ :: t => countAsk t

/-- The `requests` object of the `/status` reply: fields `f1`, `f2`, `total`
and nothing else. -/
structure StatusRequests where
  f1 : Nat
  f2 : Nat
  total : Nat
deriving DecidableEq, Repr

/-- `/status` reports `f1 = analyze`, `f2 = compareAnalyze`, `total`. -/
def statusRequests (c : UsageCounters) : StatusRequests :=
  ⟨c.analyze, c.compareAnalyze, c.total⟩

/-- Whether each route registration in `src/restapi.js` passes the `limiter`
middleware. -/
def usesLimiter : Endpoint → Bool
  | .analyze => true
  | .compareAnalyze => true
  | .ask => true
  | .check => true
  | .status => false

/-- `windowMs: 60 * 1000` of the limiter configuration. -/
def limiterWindowMs : Nat := 60 * 1000

/-- `max: 10` of the limiter configuration. -/
def limiterMax : Nat := 10

/-- The `message` body of the limiter configuration. -/
def limiterMessage : String :=
  "Too many requests, please try again after 1 minute"

/-- `standardHeaders: true`: rejected requests carry the standard rate-limit
headers, the retry-after hint. -/
def limiterStandardHeaders : Bool := true

/-- One request as the rate limiter sees it: the remote caller identity and
the arrival time in milliseconds since server start. -/
structure RateReq where
  caller : String
  timeMs : Nat
deriving DecidableEq, Repr

/-- The fixed window a time belongs to. -/
def windowOf (t : Nat) : Nat :=
  t / limiterWindowMs

/-- Modelled from the spec: the fixed-window cap of the external
`express-rate-limit` library (the library itself is not part of this
repository); a request is let through iff fewer than `limiterMax` earlier
requests of the same caller fall into the same fixed window. -/
def limiterAllows (prev : List RateReq) (r : RateReq) : Bool :=
  (prev.filter (fun p => p.caller == r.caller && windowOf p.timeMs == windowOf r.timeMs)).length
    < limiterMax

/-- The limiter's decision for one incoming request. -/
inductive LimiterDecision
  | allow
  | reject (status : Nat) (msg : String) (retryHint : Bool)
deriving DecidableEq, Repr

/-- Modelled from the spec: let the request through below the cap, otherwise reply 429 with the
configured message and the standard retry-after headers. -/
def limiterStep (prev : List RateReq) (r : RateReq) : LimiterDecision :=
  if limiterAllows prev r then .allow
  else .reject 429 limiterMessage limiterStandardHeaders

/-! ## Helper lemmas about the batch chunking -/

theorem toChunksGo_flatten {α : Type} :
    ∀ (fuel : Nat) (l : List α), l.length ≤ fuel → (toChunksGo fuel l).flatten = l := by
  intro fuel
  induction fuel with
  | zero =>
    intro l h
    cases l with
    | nil => rfl
    | cons a t => simp at h
  | succ n ih =>
    intro l h
    cases l with
    | nil => rfl
    | cons a t =>
      simp only [toChunksGo, List.flatten_cons]
      rw [ih]
      · exact List.take_append_drop _ _
      · simp only [List.length_drop, List.length_cons, chunkSize]
        simp only [List.length_cons] at h
        omega

theorem toChunksGo_length {α : Type} :
    ∀ (fuel : Nat) (l : List α), l.length ≤ fuel →
      (toChunksGo fuel l).length = (l.length + 99) / 100 := by
  intro fuel
  induction fuel with
  | zero =>
    intro l h
    cases l with
    | nil => simp [toChunksGo]
    | cons a t => simp at h
  | succ n ih =>
    intro l h
    cases l with
    | nil => simp [toChunksGo]
    | cons a t =>
      simp only [toChunksGo, List.length_cons]
      rw [ih]
      · simp only [List.length_drop, List.length_cons, chunkSize]
        omega
      · simp only [List.length_drop, List.length_cons, chunkSize]
        simp only [List.length_cons] at h
        omega

theorem toChunks_flatten {α : Type} (l : List α) : (toChunks l).flatten = l :=
  toChunksGo_flatten l.length l (Nat.le_refl _)

theorem toChunks_length {α : Type} (l : List α) :
    (toChunks l).length = (l.length + 99) / 100 :=
  toChunksGo_length l.length l (Nat.le_refl _)

theorem flatten_map_length {α β : Type} (q : List α → List β) :
    ∀ (chunks : List (List α)), (∀ c ∈ chunks, (q c).length = c.length) →
      ((chunks.map q).flatten).length = chunks.flatten.length := by
  intro chunks
  induction chunks with
  | nil => intro _; rfl
  | cons c t ih =>
    intro h
    simp only [List.map_cons, List.flatten_cons, List.length_append]
    rw [h c (List.mem_cons_self _ _), ih (fun d hd => h d (List.mem_cons_of_mem _ hd))]

/-! ## Claims about the batch job -/

/-- C1 (counterexample): a run of the batch job over the one-word list
"hello" writes exactly one file, the combined `all_dic.json`.  The claim says
a run writes `ceil(N/C)` per-chunk files, each named by its starting offset,
plus one combined file — for N = 1 that would be two files, one of them named
"0"; the code writes no per-chunk file at all. -/
theorem batch_files_cex :
    processWords ("hello") (fun c => c.map (fun _ => (0 : Nat))) =
      [⟨"all_dic.json", [0]⟩] ∧
    (processWords ("hello") (fun c => c.map (fun _ => (0 : Nat)))).map FileWrite.name =
      ["all_dic.json"] ∧
    (processWords ("hello") (fun c => c.map (fun _ => (0 : Nat)))).length ≠ 2 := by
  decide

/-- C1 (amended): a run of the batch job splits the N parsed words into
`ceil(N/100)` chunks and writes exactly one output file, the combined
`all_dic.json`, holding the in-order concatenation of the per-chunk provider
results; when the provider returns one record per word of each chunk, the
combined file holds exactly one record per input word.  No per-chunk files
are written. -/
theorem batch_combined_output {α : Type} (content : String) (query : List String → List α)
    (hq : ∀ c ∈ toChunks (parseWords content), (query c).length = c.length) :
    processWords content query =
      [⟨"all_dic.json", ((toChunks (parseWords content)).map query).flatten⟩] ∧
    (toChunks (parseWords content)).length = ((parseWords content).length + 99) / 100 ∧
    (((toChunks (parseWords content)).map query).flatten).length =
      (parseWords content).length := by
  refine ⟨rfl, toChunks_length _, ?_⟩
  rw [flatten_map_length query _ hq, toChunks_flatten]

/-- C1 (witness): the amended theorem evaluated on the two-word list "a\nb"
with a provider returning one record per word. -/
theorem batch_combined_output_witness :
    (∀ c ∈ toChunks (parseWords ("a\nb")),
      ((fun (c : List String) => c.map (fun _ => (0 : Nat))) c).length = c.length) ∧
    (processWords ("a\nb") (fun c => c.map (fun _ => (0 : Nat))) =
      [⟨"all_dic.json",
        ((toChunks (parseWords ("a\nb"))).map (fun c => c.map (fun _ => (0 : Nat)))).flatten⟩] ∧
    (toChunks (parseWords ("a\nb"))).length = ((parseWords ("a\nb")).length + 99) / 100 ∧
    (((toChunks (parseWords ("a\nb"))).map (fun c => c.map (fun _ => (0 : Nat)))).flatten).length =
      (parseWords ("a\nb")).length) :=
  ⟨by decide, batch_combined_output ("a\nb") (fun c => c.map (fun _ => (0 : Nat))) (by decide)⟩

/-- C2 (counterexample): started over the one-word list "hello" in a
directory already holding chunk-output files for offsets 0, 100 and 200, the
job still requests the chunk at offset 0 — its requests are [0], not the []
the claim's skip rule would demand (and for longer lists it would re-request
every chunk at or before the resume point).  `src/batch.js` never scans the
output directory. -/
theorem batch_resume_cex :
    requestedOffsetsWithExisting [0, 100, 200] ("hello") = [0] ∧
    0 ∈ requestedOffsetsWithExisting [0, 100, 200] ("hello") := by
  decide

/-- C2 (amended): the batch job has no resume mechanism: whatever chunk-output
files already exist, a run requests every chunk of the word list, starting at
offset 0 and advancing by the chunk size. -/
theorem batch_no_resume (existing : List Nat) (content : String) :
    requestedOffsetsWithExisting existing content = requestedOffsets content ∧
    requestedOffsets content =
      (List.range (((parseWords content).length + 99) / 100)).map (· * chunkSize) ∧
    (parseWords content ≠ [] → 0 ∈ requestedOffsetsWithExisting existing content) := by
  refine ⟨rfl, ?_, ?_⟩
  · show (List.range (toChunks (parseWords content)).length).map (· * chunkSize) = _
    rw [toChunks_length]
  · intro h
    have hk : 0 < ((parseWords content).length + 99) / 100 := by
      have hl : 0 < (parseWords content).length := List.length_pos.mpr h
      omega
    show 0 ∈ (List.range (toChunks (parseWords content)).length).map (· * chunkSize)
    rw [toChunks_length]
    exact List.mem_map.mpr ⟨0, List.mem_range.mpr hk, rfl⟩

/-- C2 (witness): the amended theorem evaluated with chunk files 0, 100, 200
present and the one-word list "hello". -/
theorem batch_no_resume_witness :
    parseWords ("hello") ≠ [] ∧
    0 ∈ requestedOffsetsWithExisting [0, 100, 200] ("hello") :=
  ⟨by decide, (batch_no_resume [0, 100, 200] ("hello")).2.2 (by decide)⟩

/-- Models `JSON.parse` (restricted to arrays of numbers) on the two strings
of the C6 counterexample: the unbalanced "[1] ]" is not valid JSON, so the
parse throws (`none`); the balanced "[1]" parses to a one-element array. -/
def jsonParseSample : String → Option (List Nat) :=
  fun s => if s = "[1]" then some [1] else none

/-- C6 (counterexample): on the provider reply "[1] ]" the code's regex
`/\[[\s\S]*\]/` greedily matches from the first `[` through the *last* `]`,
yielding the unparseable "[1] ]" and hence the empty chunk result — whereas
the bracket-matched first top-level JSON array substring is "[1]", which
parses to a one-record array.  The extraction is not the bracket-matched
first top-level array the claim describes. -/
theorem batch_extract_cex :
    extractArray ("[1] ]") = some ("[1] ]") ∧
    specFirstTopLevelArray ("[1] ]") = some ("[1]") ∧
    queryGemini (Except.ok ("[1] ]")) jsonParseSample = [] ∧
    jsonParseSample ("[1]") = some [1] := by
  decide

/-- C6 (amended): for every chunk, a provider-call error, a reply without the
regex match, or a match that fails to parse each yield the empty array as the
chunk result, and a successful parse yields the parsed records — no exception
leaves `queryGemini`; the extracted substring is the one reaching from the
first `[` through the last `]` of the reply (the greedy regex match), not the
first bracket-matched top-level array. -/
theorem batch_chunk_errors_empty {α : Type} (e r t : String) (p : String → Option (List α)) :
    queryGemini (Except.error e) p = [] ∧
    (extractArray r = none → queryGemini (Except.ok r) p = []) ∧
    (extractArray r = some t → p t = none → queryGemini (Except.ok r) p = []) ∧
    (∀ l, extractArray r = some t → p t = some l → queryGemini (Except.ok r) p = l) := by
  refine ⟨rfl, ?_, ?_, ?_⟩
  · intro h
    simp [queryGemini, h]
  · intro h1 h2
    simp [queryGemini, h1, h2]
  · intro l h1 h2
    simp [queryGemini, h1, h2]

/-- C6 (witness): the amended theorem evaluated on a provider error, a reply
with no array, and the unparseable greedy match "[1] ]". -/
theorem batch_chunk_errors_empty_witness :
    queryGemini (Except.error ("network down")) jsonParseSample = [] ∧
    (extractArray ("no array here") = none ∧
      queryGemini (Except.ok ("no array here")) jsonParseSample = []) ∧
    (extractArray ("[1] ]") = some ("[1] ]") ∧ jsonParseSample ("[1] ]") = none ∧
      queryGemini (Except.ok ("[1] ]")) jsonParseSample = []) :=
  ⟨(batch_chunk_errors_empty ("network down") ("x") ("x") jsonParseSample).1,
   ⟨by decide,
    (batch_chunk_errors_empty ("e") ("no array here") ("x") jsonParseSample).2.1 (by decide)⟩,
   ⟨by decide, by decide,
    (batch_chunk_errors_empty ("e") ("[1] ]") ("[1] ]") jsonParseSample).2.2.1
      (by decide) (by decide)⟩⟩

/-! ## Claims about the relay service -/

/-- A sample parsed provider result. -/
def sampleResult : AnalysisResult :=
  ⟨some ("2024.08.20"), some ("2026.08.20"), none, none⟩

/-- Sample analyze outcomes with every provider succeeding. -/
def sampleAnalyzeOutcomes : AnalyzeOutcomes :=
  ⟨Except.ok sampleResult, MixtralOutcome.ok sampleResult, Except.ok sampleResult⟩

/-- Sample ask outcomes with every provider succeeding. -/
def sampleAskOutcomes : AskOutcomes :=
  ⟨Except.ok ("reply"), Except.ok ("reply"), Except.ok ("reply")⟩

/-- C3 (counterexample): when the MIXTRAL provider call fails while the other
two succeed, `/compareAnalyze` still answers 200 with three slots in order,
but the failing MIXTRAL slot is not the all-null object the claim demands:
its `additional_info` carries the error text, because `analyzeWithMixtral`
catches its own errors before the per-branch null-filling catch can run. -/
theorem compare_mixtral_slot_cex :
    (compareAnalyzeHandler true
      ⟨Except.ok sampleResult, MixtralOutcome.err ⟨"Error", "boom"⟩,
        Except.ok sampleResult⟩).1 =
      CompareResp.ok 200 [sampleResult,
        { nullResult with additional_info := some ("Mixtral Error: boom") },
        sampleResult] ∧
    ({ nullResult with additional_info := some ("Mixtral Error: boom") } : AnalysisResult)
      ≠ nullResult := by
  decide

/-- C3 (amended): with an image attached, `/compareAnalyze` always answers
status 200 with one slot per provider in the fixed order GEMINI, MIXTRAL,
GEMINI_THINKING, each slot depending only on its own provider's outcome (so
one failure never fails or cancels the others); a failing GEMINI or
GEMINI_THINKING call yields the all-null slot, a succeeding one its parsed
result, while a failing MIXTRAL call yields a slot whose three date/id fields
are null but whose `additional_info` holds the error message. -/
theorem compare_error_isolation (g t : Except JsErr AnalysisResult) (m : MixtralOutcome) :
    (compareAnalyzeHandler true ⟨g, m, t⟩).1 =
      CompareResp.ok 200 [catchNull g, analyzeWithMixtral m, catchNull t] ∧
    (∀ e, g = Except.error e → catchNull g = nullResult) ∧
    (∀ e, t = Except.error e → catchNull t = nullResult) ∧
    (∀ e, m = MixtralOutcome.err e → analyzeWithMixtral m =
      { nullResult with additional_info := some ("Mixtral Error: " ++ e.message) }) ∧
    (∀ r, g = Except.ok r → catchNull g = r) ∧
    (∀ r, t = Except.ok r → catchNull t = r) ∧
    (∀ r, m = MixtralOutcome.ok r → analyzeWithMixtral m = r) := by
  refine ⟨rfl, ?_, ?_, ?_, ?_, ?_, ?_⟩ <;> intro x h <;> subst h <;> rfl

/-- C3 (witness): the amended theorem evaluated with GEMINI failing and the
other two providers succeeding. -/
theorem compare_error_isolation_witness :
    (compareAnalyzeHandler true
      ⟨Except.error ⟨"Error", "gemini down"⟩, MixtralOutcome.ok sampleResult,
        Except.ok sampleResult⟩).1 =
      CompareResp.ok 200
        [catchNull (Except.error ⟨"Error", "gemini down"⟩),
          analyzeWithMixtral (MixtralOutcome.ok sampleResult),
          catchNull (Except.ok sampleResult)] ∧
    catchNull (Except.error (⟨"Error", "gemini down"⟩ : JsErr)) = nullResult ∧
    catchNull (Except.ok sampleResult) = sampleResult :=
  ⟨(compare_error_isolation (Except.error ⟨"Error", "gemini down"⟩)
      (Except.ok sampleResult) (MixtralOutcome.ok sampleResult)).1,
   (compare_error_isolation (Except.error ⟨"Error", "gemini down"⟩)
      (Except.ok sampleResult) (MixtralOutcome.ok sampleResult)).2.1 _ rfl,
   (compare_error_isolation (Except.error ⟨"Error", "gemini down"⟩)
      (Except.ok sampleResult) (MixtralOutcome.ok sampleResult)).2.2.2.2.2.1 _ rfl⟩

/-- C4: every input-validation failure is answered 400 before any provider
call — `/analyze` without a file, `/analyze` with a selector failing the enum
lookup, `/ask` with a missing (or empty, by JS truthiness) prompt, and `/ask`
with a selector failing the enum lookup all return the 400 error and an empty
provider-call list. -/
theorem validation_400_no_provider (m p : Option String)
    (o : AnalyzeOutcomes) (ao : AskOutcomes) :
    analyzeHandler false m o = (AnalyzeResp.err 400 ("No image file provided"), []) ∧
    (selectModel m = none →
      analyzeHandler true m o =
        (AnalyzeResp.err 400 ("Invalid model type. Use GEMINI or MIXTRAL"), [])) ∧
    (promptMissing p = true →
      askHandler importedIdentifiersV2 p m ao =
        (AskResp.err 400 ("No prompt provided"), [])) ∧
    (promptMissing p = false → selectModel m = none →
      askHandler importedIdentifiersV2 p m ao =
        (AskResp.err 400 ("Invalid model type. Use GEMINI, MIXTRAL, or GEMINI_THINKING"), [])) := by
  refine ⟨rfl, ?_, ?_, ?_⟩
  · intro h
    simp [analyzeHandler, h]
  · intro h
    simp [askHandler, h]
  · intro h1 h2
    simp [askHandler, h1, h2]

/-- C4 (witness): the theorem evaluated on a missing file, the unrecognized
selector "FOO", a missing prompt, and both failures of `/ask`. -/
theorem validation_400_no_provider_witness :
    analyzeHandler false (some ("FOO")) sampleAnalyzeOutcomes =
      (AnalyzeResp.err 400 ("No image file provided"), []) ∧
    (selectModel (some ("FOO")) = none ∧
      analyzeHandler true (some ("FOO")) sampleAnalyzeOutcomes =
        (AnalyzeResp.err 400 ("Invalid model type. Use GEMINI or MIXTRAL"), [])) ∧
    (promptMissing none = true ∧
      askHandler importedIdentifiersV2 none (some ("GEMINI")) sampleAskOutcomes =
        (AskResp.err 400 ("No prompt provided"), [])) ∧
    (promptMissing (some ("hi")) = false ∧ selectModel (some ("FOO")) = none ∧
      askHandler importedIdentifiersV2 (some ("hi")) (some ("FOO")) sampleAskOutcomes =
        (AskResp.err 400 ("Invalid model type. Use GEMINI, MIXTRAL, or GEMINI_THINKING"), [])) :=
  ⟨(validation_400_no_provider (some ("FOO")) none sampleAnalyzeOutcomes sampleAskOutcomes).1,
   ⟨by decide,
    (validation_400_no_provider (some ("FOO")) none sampleAnalyzeOutcomes
      sampleAskOutcomes).2.1 (by decide)⟩,
   ⟨by decide,
    (validation_400_no_provider (some ("GEMINI")) none sampleAnalyzeOutcomes
      sampleAskOutcomes).2.2.1 (by decide)⟩,
   ⟨by decide, by decide,
    (validation_400_no_provider (some ("FOO")) (some ("hi")) sampleAnalyzeOutcomes
      sampleAskOutcomes).2.2.2 (by decide) (by decide)⟩⟩

/-- C5: the limiter guards all three mutating endpoints; a request whose
caller already has `limiterMax` = 10 requests in the current 60-second fixed
window is rejected with 429, the configured "too many requests" message and
the standard retry-after headers, while a request all of whose same-caller
predecessors lie in earlier windows is let through. -/
theorem rate_limit_cap (prev : List RateReq) (r r2 : RateReq) :
    usesLimiter Endpoint.analyze = true ∧
    usesLimiter Endpoint.compareAnalyze = true ∧
    usesLimiter Endpoint.ask = true ∧
    (limiterMax ≤
      (prev.filter (fun p => p.caller == r.caller
        && windowOf p.timeMs == windowOf r.timeMs)).length →
      limiterStep prev r = LimiterDecision.reject 429 limiterMessage true) ∧
    ((∀ p ∈ prev, p.caller = r2.caller → windowOf p.timeMs ≠ windowOf r2.timeMs) →
      limiterStep prev r2 = LimiterDecision.allow) := by
  refine ⟨rfl, rfl, rfl, ?_, ?_⟩
  · intro h
    have hc : limiterAllows prev r = false := by
      simp only [limiterAllows, decide_eq_false_iff_not, Nat.not_lt]
      exact h
    simp [limiterStep, hc, limiterStandardHeaders]
  · intro h
    have hf : prev.filter (fun p => p.caller == r2.caller
        && windowOf p.timeMs == windowOf r2.timeMs) = [] := by
      apply List.filter_eq_nil_iff.mpr
      intro p hp
      simp only [Bool.and_eq_true, beq_iff_eq, not_and]
      exact h p hp
    have hc : limiterAllows prev r2 = true := by
      simp [limiterAllows, hf, limiterMax]
    simp [limiterStep, hc]

/-- Ten requests of the same caller inside the first window. -/
def tenReqs : List RateReq :=
  (List.range 10).map (fun i => ⟨"c", i⟩)

/-- C5 (witness): with ten same-caller requests already in the window, the
11th request (at 10 ms) is rejected 429 with the configured message; the next
request after the window elapses (at 60000 ms) is let through. -/
theorem rate_limit_cap_witness :
    (limiterMax ≤
      (tenReqs.filter (fun p => p.caller == "c" && windowOf p.timeMs == windowOf 10)).length ∧
      limiterStep tenReqs ⟨"c", 10⟩ = LimiterDecision.reject 429 limiterMessage true) ∧
    ((∀ p ∈ tenReqs, p.caller = "c" → windowOf p.timeMs ≠ windowOf 60000) ∧
      limiterStep tenReqs ⟨"c", 60000⟩ = LimiterDecision.allow) :=
  ⟨⟨by decide, (rate_limit_cap tenReqs ⟨"c", 10⟩ ⟨"c", 60000⟩).2.2.2.1 (by decide)⟩,
   ⟨by decide, (rate_limit_cap tenReqs ⟨"c", 10⟩ ⟨"c", 60000⟩).2.2.2.2 (by decide)⟩⟩

/-- C7: when the upstream error of an `/ask` call contains a rate-limit
marker ("Too Many Requests" or "Please try again later"), the `ask` catch
replaces it by the fixed message "Rate limit exceeded, please try again
later"; any other upstream error is rethrown unchanged, so the surfaced 500
message equals the upstream message and differs from the rate-limit message
whenever the upstream message does.  Through the working MIXTRAL path the
handler surfaces exactly the classified message. -/
theorem ask_rate_limit_message (e : JsErr) (p : String) (o : AskOutcomes) :
    (strIncludes (jsErrToString e) ("Too Many Requests") = true ∨
      strIncludes (jsErrToString e) ("Please try again later") = true →
      askCatch e = ⟨"Error", rateLimitMsg⟩) ∧
    (strIncludes (jsErrToString e) ("Too Many Requests") = false →
      strIncludes (jsErrToString e) ("Please try again later") = false →
      askCatch e = e ∧
        (e.message ≠ rateLimitMsg → (askCatch e).message ≠ rateLimitMsg)) ∧
    (p ≠ "" → o.mixtral = Except.error e →
      (askHandler importedIdentifiersV2 (some p) (some ("MIXTRAL")) o).1 =
        AskResp.err 500 (askCatch e).message) := by
  refine ⟨?_, ?_, ?_⟩
  · intro h
    rcases h with h | h <;> simp [askCatch, h]
  · intro h1 h2
    have hc : askCatch e = e := by
      simp [askCatch, h1, h2]
    exact ⟨hc, fun hm => by rw [hc]; exact hm⟩
  · intro hp hm
    have hpm : promptMissing (some p) = false := by
      simp [promptMissing, hp]
    have hsel : selectModel (some ("MIXTRAL")) = some ModelType.MIXTRAL := by
      decide
    simp [askHandler, hpm, hsel, askClient, hm]

/-- C7 (witness): a marked upstream error ("429 Too Many Requests") surfaces
as the fixed rate-limit message through the `/ask` MIXTRAL path; the generic
upstream error "connection reset" surfaces unchanged and differs from the
rate-limit message. -/
theorem ask_rate_limit_message_witness :
    (strIncludes (jsErrToString ⟨"Error", "429 Too Many Requests"⟩) ("Too Many Requests") = true ∧
      askCatch ⟨"Error", "429 Too Many Requests"⟩ = ⟨"Error", rateLimitMsg⟩) ∧
    (askCatch ⟨"Error", "connection reset"⟩ = ⟨"Error", "connection reset"⟩ ∧
      (askCatch (⟨"Error", "connection reset"⟩ : JsErr)).message ≠ rateLimitMsg) ∧
    (askHandler importedIdentifiersV2 (some ("hi")) (some ("MIXTRAL"))
        ⟨Except.ok ("reply"), Except.ok ("reply"),
          Except.error ⟨"Error", "429 Too Many Requests"⟩⟩).1 =
      AskResp.err 500 (askCatch ⟨"Error", "429 Too Many Requests"⟩).message :=
  ⟨⟨by decide,
    (ask_rate_limit_message ⟨"Error", "429 Too Many Requests"⟩ ("hi")
      sampleAskOutcomes).1 (Or.inl (by decide))⟩,
   ⟨((ask_rate_limit_message ⟨"Error", "connection reset"⟩ ("hi")
      sampleAskOutcomes).2.1 (by decide) (by decide)).1,
    ((ask_rate_limit_message ⟨"Error", "connection reset"⟩ ("hi")
      sampleAskOutcomes).2.1 (by decide) (by decide)).2 (by decide)⟩,
   (ask_rate_limit_message ⟨"Error", "429 Too Many Requests"⟩ ("hi")
      ⟨Except.ok ("reply"), Except.ok ("reply"),
        Except.error ⟨"Error", "429 Too Many Requests"⟩⟩).2.2
      (by decide) rfl⟩

/-- Evaluating the Gemini branches of `ask` in the scope of the rate-limited
variant stops at the `ReferenceError` with no provider call. -/
theorem askClient_gemini_ref_error (o : AskOutcomes) :
    askClient importedIdentifiersV2 o ModelType.GEMINI =
      (Except.error harmReferenceError, []) ∧
    askClient importedIdentifiersV2 o ModelType.GEMINI_THINKING =
      (Except.error harmReferenceError, []) := by
  have hcatch : askCatch harmReferenceError = harmReferenceError := by decide
  refine ⟨?_, ?_⟩ <;>
  · simp [askClient, hcatch]
    intro h1 _
    exact absurd h1 (by decide)

/-- C8: the rate-limited variant of `src/restapi.js` never imports
`HarmCategory` or `HarmBlockThreshold`, yet the Gemini branches of
`ImageAnalysisClient.ask` reference them while building `safetySettings`;
evaluating either branch therefore raises a `ReferenceError` before any
provider call, so `/ask` with GEMINI or GEMINI_THINKING always answers 500
("HarmCategory is not defined") with no provider invoked, while the MIXTRAL
path can answer 200. -/
theorem ask_gemini_always_500 (p : String) (m : Option String) (o : AskOutcomes) :
    "HarmCategory" ∉ importedIdentifiersV2 ∧
    "HarmBlockThreshold" ∉ importedIdentifiersV2 ∧
    (p ≠ "" →
      (selectModel m = some ModelType.GEMINI ∨
        selectModel m = some ModelType.GEMINI_THINKING) →
      askHandler importedIdentifiersV2 (some p) m o =
        (AskResp.err 500 ("HarmCategory is not defined"), [])) ∧
    (p ≠ "" → ∀ s, o.mixtral = Except.ok s →
      askHandler importedIdentifiersV2 (some p) (some ("MIXTRAL")) o =
        (AskResp.ok 200 s, [ModelType.MIXTRAL])) := by
  refine ⟨by decide, by decide, ?_, ?_⟩
  · intro hp hsel
    have hpm : promptMissing (some p) = false := by
      simp [promptMissing, hp]
    rcases hsel with h | h <;>
      simp [askHandler, hpm, h, (askClient_gemini_ref_error o).1,
        (askClient_gemini_ref_error o).2, harmReferenceError]
  · intro hp s hs
    have hpm : promptMissing (some p) = false := by
      simp [promptMissing, hp]
    have hsel : selectModel (some ("MIXTRAL")) = some ModelType.MIXTRAL := by
      decide
    simp [askHandler, hpm, hsel, askClient, hs]

/-- C8 (witness): the theorem evaluated on a GEMINI and a GEMINI_THINKING
`/ask` request (always 500, no provider call) and on a successful MIXTRAL
request (200). -/
theorem ask_gemini_always_500_witness :
    askHandler importedIdentifiersV2 (some ("hi")) (some ("gemini")) sampleAskOutcomes =
      (AskResp.err 500 ("HarmCategory is not defined"), []) ∧
    askHandler importedIdentifiersV2 (some ("hi")) (some ("GEMINI_THINKING")) sampleAskOutcomes =
      (AskResp.err 500 ("HarmCategory is not defined"), []) ∧
    askHandler importedIdentifiersV2 (some ("hi")) (some ("MIXTRAL")) sampleAskOutcomes =
      (AskResp.ok 200 ("reply"), [ModelType.MIXTRAL]) :=
  ⟨(ask_gemini_always_500 ("hi") (some ("gemini")) sampleAskOutcomes).2.2.1
      (by decide) (Or.inl (by decide)),
   (ask_gemini_always_500 ("hi") (some ("GEMINI_THINKING")) sampleAskOutcomes).2.2.1
      (by decide) (Or.inr (by decide)),
   (ask_gemini_always_500 ("hi") (some ("MIXTRAL")) sampleAskOutcomes).2.2.2
      (by decide) ("reply") rfl⟩

/-- The counter bookkeeping over a request sequence, with an arbitrary
starting counter. -/
theorem runRequests_invariant :
    ∀ (es : List Endpoint) (c : UsageCounters),
      (es.foldl countRequest c).total + c.analyze + c.compareAnalyze =
        (es.foldl countRequest c).analyze + (es.foldl countRequest c).compareAnalyze
          + c.total + countAsk es := by
  intro es
  induction es with
  | nil =>
    intro c
    simp [countAsk]
    omega
  | cons e t ih =>
    intro c
    have h := ih (countRequest c e)
    cases e <;> simp [countAsk, countRequest] at h ⊢ <;> omega

/-- `/ask` requests are counted. -/
theorem countAsk_pos :
    ∀ (es : List Endpoint), Endpoint.ask ∈ es → 0 < countAsk es := by
  intro es
  induction es with
  | nil => intro h; simp at h
  | cons e t ih =>
    intro h
    cases e <;> simp only [countAsk] <;>
      first
      | omega
      | exact ih (by
          rcases List.mem_cons.mp h with h1 | h1
          · exact absurd h1 (by simp)
          · exact h1)

/-- C9: handling an `/ask` request increments only the `total` counter; over
any handled request sequence `total = analyze + compareAnalyze + (number of
ask requests)`, hence `total ≥ analyze + compareAnalyze` with strict
inequality once an `/ask` request was handled; and `/status` reports exactly
`f1 = analyze`, `f2 = compareAnalyze` and `total` (the `StatusRequests` shape
has no `/ask` field). -/
theorem ask_counts_only_total (c : UsageCounters) (es : List Endpoint) :
    countRequest c Endpoint.ask = { c with total := c.total + 1 } ∧
    (runRequests es).total =
      (runRequests es).analyze + (runRequests es).compareAnalyze + countAsk es ∧
    (Endpoint.ask ∈ es →
      (runRequests es).analyze + (runRequests es).compareAnalyze < (runRequests es).total) ∧
    statusRequests (runRequests es) =
      ⟨(runRequests es).analyze, (runRequests es).compareAnalyze, (runRequests es).total⟩ := by
  have hinv2 : (runRequests es).total =
      (runRequests es).analyze + (runRequests es).compareAnalyze + countAsk es := by
    have hinv := runRequests_invariant es ⟨0, 0, 0⟩
    simpa [runRequests] using hinv
  refine ⟨rfl, hinv2, ?_, rfl⟩
  intro h
  have hpos := countAsk_pos es h
  omega

/-- C9 (witness): over the sequence analyze, ask, compareAnalyze the counters
read analyze = 1, compareAnalyze = 1, total = 3, strictly more than the two
endpoint counters together. -/
theorem ask_counts_only_total_witness :
    Endpoint.ask ∈ [Endpoint.analyze, Endpoint.ask, Endpoint.compareAnalyze] ∧
    (runRequests [Endpoint.analyze, Endpoint.ask, Endpoint.compareAnalyze]).analyze +
      (runRequests [Endpoint.analyze, Endpoint.ask, Endpoint.compareAnalyze]).compareAnalyze <
      (runRequests [Endpoint.analyze, Endpoint.ask, Endpoint.compareAnalyze]).total :=
  ⟨by decide,
   (ask_counts_only_total ⟨0, 0, 0⟩
      [Endpoint.analyze, Endpoint.ask, Endpoint.compareAnalyze]).2.2.1 (by decide)⟩

/-- C10: the model selector of `/analyze` and `/ask` is matched
case-insensitively: any model string whose upper-casing is GEMINI, MIXTRAL or
GEMINI_THINKING selects that provider (so "gemini" selects GEMINI) and is
not rejected as an invalid model, while an absent model field fails the
lookup and draws the 400 invalid-model error on both endpoints. -/
theorem model_selector_uppercased (s : String) (o : AnalyzeOutcomes) (ao : AskOutcomes) :
    (toUpperCase s = "GEMINI" → selectModel (some s) = some ModelType.GEMINI) ∧
    (toUpperCase s = "MIXTRAL" → selectModel (some s) = some ModelType.MIXTRAL) ∧
    (toUpperCase s = "GEMINI_THINKING" →
      selectModel (some s) = some ModelType.GEMINI_THINKING) ∧
    selectModel none = none ∧
    (analyzeHandler true none o).1 =
      AnalyzeResp.err 400 ("Invalid model type. Use GEMINI or MIXTRAL") ∧
    (askHandler importedIdentifiersV2 (some ("hi")) none ao).1 =
      AskResp.err 400 ("Invalid model type. Use GEMINI, MIXTRAL, or GEMINI_THINKING") ∧
    (∀ mt, selectModel (some s) = some mt →
      ∀ msg, (analyzeHandler true (some s) o).1 ≠ AnalyzeResp.err 400 msg) := by
  refine ⟨?_, ?_, ?_, rfl, ?_, ?_, ?_⟩
  · intro h
    show lookupModelType (toUpperCase s) = _
    rw [h]
    decide
  · intro h
    show lookupModelType (toUpperCase s) = _
    rw [h]
    decide
  · intro h
    show lookupModelType (toUpperCase s) = _
    rw [h]
    decide
  · simp [analyzeHandler, selectModel]
  · have hpm : promptMissing (some ("hi")) = false := by decide
    simp [askHandler, hpm, selectModel]
  · intro mt h msg
    cases hA : analyzeImage o mt with
    | ok r => simp [analyzeHandler, h, hA]
    | error e => simp [analyzeHandler, h, hA]

/-- C10 (witness): the lower-case selector "gemini" selects GEMINI on
`/analyze` and is not rejected as an invalid model, while an absent model
field draws the 400 invalid-model error. -/
theorem model_selector_uppercased_witness :
    toUpperCase ("gemini") = "GEMINI" ∧
    selectModel (some ("gemini")) = some ModelType.GEMINI ∧
    (analyzeHandler true none sampleAnalyzeOutcomes).1 =
      AnalyzeResp.err 400 ("Invalid model type. Use GEMINI or MIXTRAL") ∧
    (analyzeHandler true (some ("gemini")) sampleAnalyzeOutcomes).1 ≠
      AnalyzeResp.err 400 ("Invalid model type. Use GEMINI or MIXTRAL") :=
  ⟨by decide,
   (model_selector_uppercased ("gemini") sampleAnalyzeOutcomes sampleAskOutcomes).1 (by decide),
   (model_selector_uppercased ("gemini") sampleAnalyzeOutcomes sampleAskOutcomes).2.2.2.2.1,
   (model_selector_uppercased ("gemini") sampleAnalyzeOutcomes sampleAskOutcomes).2.2.2.2.2.2
      ModelType.GEMINI (by decide) ("Invalid model type. Use GEMINI or MIXTRAL")⟩

end Spec2Proof
